import Mathlib

/-
Verification of the libzfs_core binding header (src/libzfs_core-sys/zfscore.h).

The repository consists of a single C declaration header: typedefs, two enum
declarations and twenty-four function prototypes mirroring the external
libzfs_core ABI. The shallow embedding below transcribes those declarations
as Lean data: a C type grammar, the typedef table, the two enums (with C's
implicit sequential value assignment for the enum without initializers), and
the list of function prototypes in their declared order.
-/

namespace ZfsCore

/-- The C type shapes appearing in zfscore.h: the builtin types, the two
typedef'd scalars (uint64_t, boolean_t), the two enums, char with its
constness, the forward-declared struct nvlist, and pointers. -/
inductive CType where
  | void
  | int
  | uint64
  | boolean
  | objsetType
  | sendFlags
  | cchar (isConst : Bool)
  | nvlist
  | ptr (pointee : CType)
deriving DecidableEq

/-- A C function prototype: name, return type, parameter types in order. -/
structure FnDecl where
  name : String
  ret : CType
  params : List CType
deriving DecidableEq

/-- Shorthand for the C type `const char *`. -/
def constCharPtr : CType := CType.ptr (CType.cchar true)

/-- Shorthand for the C type `char *` (mutable caller-supplied buffer). -/
def charPtr : CType := CType.ptr (CType.cchar false)

/-- Shorthand for the C type `char **`. -/
def charPtrPtr : CType := CType.ptr (CType.ptr (CType.cchar false))

/-- Shorthand for the C type `nvlist_t *`. -/
def nvlistPtr : CType := CType.ptr CType.nvlist

/-- Shorthand for the C type `nvlist_t **`. -/
def nvlistPtrPtr : CType := CType.ptr (CType.ptr CType.nvlist)

/-- Shorthand for the C type `uint64_t *`. -/
def uint64Ptr : CType := CType.ptr CType.uint64

/-- The function prototypes of zfscore.h, transcribed in declared order. -/
def zfscoreHeader : List FnDecl :=
  [⟨"libzfs_core_init", CType.int, []⟩,
   ⟨"libzfs_core_fini", CType.void, []⟩,
   ⟨"lzc_snapshot", CType.int, [nvlistPtr, nvlistPtr, nvlistPtrPtr]⟩,
   ⟨"lzc_create", CType.int, [constCharPtr, CType.objsetType, nvlistPtr]⟩,
   ⟨"lzc_clone", CType.int, [constCharPtr, constCharPtr, nvlistPtr]⟩,
   ⟨"lzc_destroy_snaps", CType.int, [nvlistPtr, CType.boolean, nvlistPtrPtr]⟩,
   ⟨"lzc_bookmark", CType.int, [nvlistPtr, nvlistPtrPtr]⟩,
   ⟨"lzc_get_bookmarks", CType.int, [constCharPtr, nvlistPtr, nvlistPtrPtr]⟩,
   ⟨"lzc_destroy_bookmarks", CType.int, [nvlistPtr, nvlistPtrPtr]⟩,
   ⟨"lzc_snaprange_space", CType.int, [constCharPtr, constCharPtr, uint64Ptr]⟩,
   ⟨"lzc_hold", CType.int, [nvlistPtr, CType.int, nvlistPtrPtr]⟩,
   ⟨"lzc_release", CType.int, [nvlistPtr, nvlistPtrPtr]⟩,
   ⟨"lzc_get_holds", CType.int, [constCharPtr, nvlistPtrPtr]⟩,
   ⟨"lzc_send", CType.int, [constCharPtr, constCharPtr, CType.int, CType.sendFlags]⟩,
   ⟨"lzc_receive", CType.int, [constCharPtr, nvlistPtr, constCharPtr, CType.boolean, CType.int]⟩,
   ⟨"lzc_send_space", CType.int, [constCharPtr, constCharPtr, uint64Ptr]⟩,
   ⟨"lzc_exists", CType.boolean, [constCharPtr]⟩,
   ⟨"lzc_rollback", CType.int, [constCharPtr, charPtr, CType.int]⟩,
   ⟨"lzc_promote", CType.int, [constCharPtr, nvlistPtr, nvlistPtrPtr]⟩,
   ⟨"lzc_rename", CType.int, [constCharPtr, constCharPtr, nvlistPtr, charPtrPtr]⟩,
   ⟨"lzc_destroy_one", CType.int, [constCharPtr, nvlistPtr]⟩,
   ⟨"lzc_inherit", CType.int, [constCharPtr, constCharPtr, nvlistPtr]⟩,
   ⟨"lzc_set_props", CType.int, [constCharPtr, nvlistPtr, nvlistPtr, nvlistPtr]⟩,
   ⟨"lzc_list", CType.int, [constCharPtr, nvlistPtr]⟩]

/-- Look a prototype up by its declared name. -/
def lookupDecl (n : String) : Option FnDecl :=
  zfscoreHeader.find? (fun f => f.name == n)

/-- A return type that is an integer at the C level: `int`, or `boolean_t`
(a typedef of `int`). -/
def isIntegerReturn : CType → Bool
  | CType.int => true
  | CType.boolean => true
  | _ => false

/-- C assigns values to enumerators declared without initializers
sequentially from 0, in declared order. -/
def cEnumAssign (names : List String) : List (String × Nat) :=
  names.enum.map (fun p => (p.snd, p.fst))

/-- The `dmu_objset_type_t` enum of zfscore.h: seven enumerators, no
initializers, so C's sequential assignment applies. -/
def dmuObjsetTypeEnum : List (String × Nat) :=
  cEnumAssign ["DMU_OST_NONE", "DMU_OST_META", "DMU_OST_ZFS", "DMU_OST_ZVOL",
               "DMU_OST_OTHER", "DMU_OST_ANY", "DMU_OST_NUMTYPES"]

/-- The explicit initializer of LZC_SEND_FLAG_EMBED_DATA in zfscore.h. -/
def LZC_SEND_FLAG_EMBED_DATA : Nat := 1

/-- The explicit initializer of LZC_SEND_FLAG_LARGE_BLOCK in zfscore.h. -/
def LZC_SEND_FLAG_LARGE_BLOCK : Nat := 2

/-- The `enum lzc_send_flags` declaration of zfscore.h: two enumerators with
explicit initializers. -/
def lzcSendFlagsEnum : List (String × Nat) :=
  [("LZC_SEND_FLAG_EMBED_DATA", LZC_SEND_FLAG_EMBED_DATA),
   ("LZC_SEND_FLAG_LARGE_BLOCK", LZC_SEND_FLAG_LARGE_BLOCK)]

/-- The underlying C shapes that the header's typedefs name. -/
inductive CPrimShape where
  | signedInt
  | unsignedLongLong
  | structNvlist
deriving DecidableEq

/-- A typedef line of the header: the new name and the shape it names. -/
structure CTypedef where
  name : String
  target : CPrimShape
deriving DecidableEq

/-- The three typedefs of zfscore.h, in declared order:
`typedef unsigned long long int uint64_t;`, `typedef int boolean_t;`,
`typedef struct nvlist nvlist_t;`. -/
def headerTypedefs : List CTypedef :=
  [⟨"uint64_t", CPrimShape.unsignedLongLong⟩,
   ⟨"boolean_t", CPrimShape.signedInt⟩,
   ⟨"nvlist_t", CPrimShape.structNvlist⟩]

/-- Look a typedef up by the name it introduces. -/
def lookupTypedef (n : String) : Option CPrimShape :=
  (headerTypedefs.find? (fun t => t.name == n)).map CTypedef.target

/-- The C standard's minimum bit width of each shape (unsigned long long
int is at least 64 bits; int is at least 16). -/
def CPrimShape.minBits : CPrimShape → Nat
  | CPrimShape.signedInt => 16
  | CPrimShape.unsignedLongLong => 64
  | CPrimShape.structNvlist => 0

/-- Whether the shape is a signed integer type. -/
def CPrimShape.signed : CPrimShape → Bool
  | CPrimShape.signedInt => true
  | CPrimShape.unsignedLongLong => false
  | CPrimShape.structNvlist => false

/-- Struct tags that zfscore.h only forward-declares (`struct nvlist;`). -/
def headerForwardStructDecls : List String := ["nvlist"]

/-- Struct tags given a complete definition in zfscore.h: none. -/
def headerCompleteStructDefs : List String := []

/-- Whether a C type mentions the struct nvlist type anywhere. -/
def containsNvlist : CType → Bool
  | CType.nvlist => true
  | CType.ptr t => containsNvlist t
  | _ => false

/-- A type either does not involve nvlist at all, or is exactly
`nvlist_t *` or `nvlist_t **` — never nvlist by value. -/
def nvlistByPointerOnly (t : CType) : Bool :=
  !(containsNvlist t) || (t == nvlistPtr) || (t == nvlistPtrPtr)

/-- Pointer shapes through which a declared function can write data back to
the caller: any pointer-to-pointer, `uint64_t *`, or a mutable `char *`. -/
def isOutParamShape : CType → Bool
  | CType.ptr (CType.ptr _) => true
  | CType.ptr CType.uint64 => true
  | CType.ptr (CType.cchar false) => true
  | _ => false

/-- Parameter shapes that carry data into the callee: scalar values,
enum values, `const char *` names, and `nvlist_t *` property lists. -/
def isInputParamShape : CType → Bool
  | CType.int => true
  | CType.boolean => true
  | CType.uint64 => true
  | CType.objsetType => true
  | CType.sendFlags => true
  | CType.ptr (CType.cchar true) => true
  | CType.ptr CType.nvlist => true
  | _ => false

/-- The output channels the spec claim enumerates: `nvlist_t **`,
`uint64_t *`, `char **`, or a caller-supplied mutable `char *` buffer. -/
def isAllowedOutputShape (t : CType) : Bool :=
  (t == nvlistPtrPtr) || (t == uint64Ptr) || (t == charPtrPtr) || (t == charPtr)

/-- Whether the header declares a function of the given name. -/
def declaresFn (n : String) : Bool :=
  zfscoreHeader.any (fun f => f.name == n)

/-- Spec-side list for the refinement claim, following the spec's words:
each operation category the spec lists, paired with the header entry point
that realizes it. -/
def specOperationCategories : List (String × String) :=
  [("lifecycle initialize", "libzfs_core_init"),
   ("lifecycle finalize", "libzfs_core_fini"),
   ("dataset create", "lzc_create"),
   ("dataset clone", "lzc_clone"),
   ("dataset rename", "lzc_rename"),
   ("dataset promote", "lzc_promote"),
   ("dataset destroy", "lzc_destroy_one"),
   ("snapshot create", "lzc_snapshot"),
   ("snapshot batch destroy", "lzc_destroy_snaps"),
   ("snapshot existence check", "lzc_exists"),
   ("snapshot space delta", "lzc_snaprange_space"),
   ("bookmark create", "lzc_bookmark"),
   ("bookmark list", "lzc_get_bookmarks"),
   ("bookmark destroy", "lzc_destroy_bookmarks"),
   ("hold acquire", "lzc_hold"),
   ("hold release", "lzc_release"),
   ("hold enumerate", "lzc_get_holds"),
   ("send", "lzc_send"),
   ("send size estimate", "lzc_send_space"),
   ("receive", "lzc_receive"),
   ("property set", "lzc_set_props"),
   ("property inherit", "lzc_inherit"),
   ("property list", "lzc_list"),
   ("rollback", "lzc_rollback")]

/-- A call event against the interface: the lifecycle entry points, or any
other declared operation identified by name. -/
inductive CallEvent where
  | start
  | finish
  | op (name : String)
deriving DecidableEq

/-- The process-wide library state of the lifecycle contract. -/
inductive LibState where
  | uninit
  | ready
  | released
deriving DecidableEq

/-- Modelled from the spec: the header declares only prototypes, so the
lifecycle rule — libzfs_core_init "must be called before any other
operation", and the global state is "released exactly once" by
libzfs_core_fini — is embedded as the spec's process-wide state machine.
`start` is a call to libzfs_core_init, `finish` a call to
libzfs_core_fini, and `op n` a call to any other declared entry point. -/
def lifecycleStep : LibState → CallEvent → Option LibState
  | LibState.uninit, CallEvent.start => some LibState.ready
  | LibState.ready, CallEvent.op _ => some LibState.ready
  | LibState.ready, CallEvent.finish => some LibState.released
  | _, _ => none

/-- Run a call sequence from a library state, failing when a call violates
the lifecycle contract. -/
def runCalls : LibState → List CallEvent → Option LibState
  | s, [] => some s
  | s, e :: rest =>
    match lifecycleStep s e with
    | some s2 => runCalls s2 rest
    | none => none

/-- A valid call sequence: starting uninitialized, every call respects the
lifecycle contract and the library state ends up released. -/
def ValidCallSeq (calls : List CallEvent) : Prop :=
  runCalls LibState.uninit calls = some LibState.released

/-- Number of libzfs_core_fini calls in a call sequence. -/
def countFini : List CallEvent → Nat
  | [] => 0
  | CallEvent.finish :: rest => countFini rest + 1
  | _ :: rest => countFini rest

/-- Once the library state is released, no further call is accepted: a run
from the released state succeeds only on the empty sequence. -/
theorem runCalls_released_nil (calls : List CallEvent) (s : LibState)
    (h : runCalls LibState.released calls = some s) : calls = [] := by
  cases calls with
  | nil => rfl
  | cons e rest => cases e <;> simp [runCalls, lifecycleStep] at h

/-- From the ready state, any run that ends with the library released
contains exactly one libzfs_core_fini call. -/
theorem countFini_of_ready (calls : List CallEvent)
    (h : runCalls LibState.ready calls = some LibState.released) :
    countFini calls = 1 := by
  induction calls with
  | nil => simp [runCalls] at h
  | cons e rest ih =>
    cases e with
    | start => simp [runCalls, lifecycleStep] at h
    | finish =>
      have hrest : rest = [] := by
        apply runCalls_released_nil rest LibState.released
        simpa [runCalls, lifecycleStep] using h
      subst hrest
      simp [countFini]
    | op n =>
      have hrest : runCalls LibState.ready rest = some LibState.released := by
        simpa [runCalls, lifecycleStep] using h
      simpa [countFini] using ih hrest

/-- C1 counterexample: the claim that every function declared in the header
signals failure via an integer return code is false — libzfs_core_fini is
declared in the header and returns void, which is not an integer type. -/
theorem c1_integer_return_counterexample :
    ¬ (∀ f ∈ zfscoreHeader, isIntegerReturn f.ret = true) ∧
    (⟨"libzfs_core_fini", CType.void, []⟩ : FnDecl) ∈ zfscoreHeader ∧
    isIntegerReturn CType.void = false := by
  refine ⟨fun h => ?_, by decide, rfl⟩
  have := h ⟨"libzfs_core_fini", CType.void, []⟩ (by decide)
  simp [isIntegerReturn] at this

/-- C1 amended: every function declared in the header, with the single
exception of libzfs_core_fini (declared void), has an integer return type
(int, or boolean_t which is a typedef of int) through which it reports its
status or result. -/
theorem c1_integer_return_amended :
    zfscoreHeader.all
      (fun f => (f.name == "libzfs_core_fini") || isIntegerReturn f.ret) = true := by
  decide

/-- C2: the dmu_objset_type_t enum has exactly seven enumerators, in the
declared order none, meta, filesystem (ZFS), volume (ZVOL), other, any,
count-sentinel (NUMTYPES), and C's sequential assignment gives them the
numeric values 0 through 6 respectively. -/
theorem c2_dmu_objset_type_values :
    dmuObjsetTypeEnum =
      [("DMU_OST_NONE", 0), ("DMU_OST_META", 1), ("DMU_OST_ZFS", 2),
       ("DMU_OST_ZVOL", 3), ("DMU_OST_OTHER", 4), ("DMU_OST_ANY", 5),
       ("DMU_OST_NUMTYPES", 6)] ∧
    dmuObjsetTypeEnum.length = 7 := by
  decide

/-- C3: the lzc_send_flags enum consists of exactly the two values
LZC_SEND_FLAG_EMBED_DATA = 1 and LZC_SEND_FLAG_LARGE_BLOCK = 2; their bits
are disjoint, every subset of the flags is representable as a bitwise-OR
combination, and each flag is recoverable from any combination by bitwise
AND. -/
theorem c3_send_flags_bitmask :
    lzcSendFlagsEnum =
      [("LZC_SEND_FLAG_EMBED_DATA", 1), ("LZC_SEND_FLAG_LARGE_BLOCK", 2)] ∧
    Nat.land LZC_SEND_FLAG_EMBED_DATA LZC_SEND_FLAG_LARGE_BLOCK = 0 ∧
    (∀ a b : Bool,
      (Nat.land
        (Nat.lor (if a then LZC_SEND_FLAG_EMBED_DATA else 0)
                 (if b then LZC_SEND_FLAG_LARGE_BLOCK else 0))
        LZC_SEND_FLAG_EMBED_DATA ≠ 0 ↔ a = true) ∧
      (Nat.land
        (Nat.lor (if a then LZC_SEND_FLAG_EMBED_DATA else 0)
                 (if b then LZC_SEND_FLAG_LARGE_BLOCK else 0))
        LZC_SEND_FLAG_LARGE_BLOCK ≠ 0 ↔ b = true)) := by
  decide

/-- C4: the typedefs fix the primitive type shapes — uint64_t names
unsigned long long int (an unsigned integer of at least 64 bits),
boolean_t names plain signed int, and nvlist_t names the struct nvlist
type. -/
theorem c4_typedef_shapes :
    lookupTypedef "uint64_t" = some CPrimShape.unsignedLongLong ∧
    64 ≤ CPrimShape.unsignedLongLong.minBits ∧
    CPrimShape.unsignedLongLong.signed = false ∧
    lookupTypedef "boolean_t" = some CPrimShape.signedInt ∧
    CPrimShape.signedInt.signed = true ∧
    lookupTypedef "nvlist_t" = some CPrimShape.structNvlist := by
  decide

/-- C5: for every operation category the spec lists — lifecycle, dataset
create/clone/rename/promote/destroy, snapshot create/batch
destroy/existence/space delta, bookmark create/list/destroy, hold
acquire/release/enumerate, send/send-size/receive, property
set/inherit/list, rollback — the header declares a corresponding entry
point, and every such entry point except the void finalizer and the
boolean existence check returns an int status code. -/
theorem c5_operation_categories_covered :
    specOperationCategories.all (fun c => declaresFn c.snd) = true ∧
    specOperationCategories.all (fun c =>
      (c.snd == "libzfs_core_fini") || (c.snd == "lzc_exists") ||
      ((lookupDecl c.snd).map FnDecl.ret == some CType.int)) = true := by
  decide

/-- C6: struct nvlist is forward-declared but never defined in the header,
and every declared function handles nvlists only through `nvlist_t *` or
`nvlist_t **` parameters and results, never by value. -/
theorem c6_nvlist_pointer_only :
    headerForwardStructDecls = ["nvlist"] ∧
    headerCompleteStructDefs = [] ∧
    zfscoreHeader.all
      (fun f => nvlistByPointerOnly f.ret && f.params.all nvlistByPointerOnly)
      = true := by
  decide

/-- C7: in every valid call sequence against the interface,
libzfs_core_init is the first call — so it precedes every other declared
operation — and libzfs_core_fini is called exactly once. -/
theorem c7_lifecycle_protocol (calls : List CallEvent) (h : ValidCallSeq calls) :
    calls.head? = some CallEvent.start ∧ countFini calls = 1 := by
  cases calls with
  | nil => simp [ValidCallSeq, runCalls] at h
  | cons e rest =>
    cases e with
    | start =>
      refine ⟨rfl, ?_⟩
      have hrest : runCalls LibState.ready rest = some LibState.released := by
        simpa [ValidCallSeq, runCalls, lifecycleStep] using h
      simpa [countFini] using countFini_of_ready rest hrest
    | finish => simp [ValidCallSeq, runCalls, lifecycleStep] at h
    | op n => simp [ValidCallSeq, runCalls, lifecycleStep] at h

/-- C7 witness: the concrete valid sequence init, snapshot, fini starts
with init and contains exactly one fini call. -/
theorem c7_lifecycle_protocol_witness :
    ([CallEvent.start, CallEvent.op "lzc_snapshot", CallEvent.finish].head?
        = some CallEvent.start) ∧
    countFini [CallEvent.start, CallEvent.op "lzc_snapshot", CallEvent.finish] = 1 :=
  c7_lifecycle_protocol
    [CallEvent.start, CallEvent.op "lzc_snapshot", CallEvent.finish] rfl

/-- C8: libzfs_core_fini is declared with return type void and no
parameters, so no call to it yields a status code and a failure during
finalization is unobservable at this interface. -/
theorem c8_fini_returns_void :
    lookupDecl "libzfs_core_fini" =
      some ⟨"libzfs_core_fini", CType.void, []⟩ := by
  decide

/-- C9: lzc_exists is declared returning only a boolean_t and taking a
single `const char *` name argument; none of its parameters is an output
channel and its return type is not the int status type, so the interface
cannot separate a failed query from a nonexistent dataset. -/
theorem c9_exists_no_error_channel :
    lookupDecl "lzc_exists" =
      some ⟨"lzc_exists", CType.boolean, [CType.ptr (CType.cchar true)]⟩ ∧
    ((lookupDecl "lzc_exists").map
      (fun f => f.params.all (fun p => !(isOutParamShape p)))) = some true := by
  decide

/-- C10: every int-returning function declared in the header delivers data
outputs only through the enumerated pointer shapes (`nvlist_t **`,
`uint64_t *`, `char **`, or a mutable `char *` buffer), every other
parameter being a pure input, and whenever a mutable `char *` buffer
appears it is accompanied by an int length parameter. -/
theorem c10_int_return_output_channels :
    zfscoreHeader.all (fun f =>
      !(f.ret == CType.int) ||
      (f.params.all (fun p => isInputParamShape p || isAllowedOutputShape p) &&
       (!(f.params.any (fun p => p == charPtr)) ||
        f.params.any (fun p => p == CType.int)))) = true := by
  decide

end ZfsCore
